import Mathlib

/-!
Verification of the content-analysis scoring pipeline of the
TCGweb-health-checker repository (`analyzer/content_analysis.py`).

The pipeline is embedded shallowly:

* `CrawlResult` models the crawler's result record (the crawler itself is an
  external collaborator; only its result shape matters here).
* `PyVal` models dynamically-typed Python/JSON values: the score and notes
  extracted from the inference reply keep whatever runtime type they had.
* `InferenceReply` models the outcome of the `generate_content` call: either
  a reply text or a raised exception.
* `jsonLoads` models Python's `json.loads` on the JSON fragment relevant here
  (objects, arrays, strings, integers, booleans, null; strict rejection of
  raw control characters in strings; whole-input consumption).
* `analyze` is the transcription of `ContentAnalysisAgent.analyze`.  It is
  instrumented with the list of prompts sent to the inference service, so
  that "no inference call is made" is a provable statement, and it returns
  `Except` because a `TypeError` can escape the Python function (the
  `score < 50` comparison sits outside the `try` block).
-/

/-- A dynamically-typed value as produced by `json.loads` in Python. -/
inductive PyVal where
  | none : PyVal
  | bool : Bool → PyVal
  | int : Int → PyVal
  | str : String → PyVal
  | list : List PyVal → PyVal
  | dict : List (String × PyVal) → PyVal
deriving Repr

/-- Modelled from the spec: the crawler (an external collaborator whose code is
not part of the analyzed core) supplies a `CrawlResult`-shaped record with the
page url, the optional raw HTML (absence meaning the page could not be
fetched), a best-effort last-updated date string (possibly empty), and a
mapping from link URL to HTTP status code. -/
structure CrawlResult where
  url : String
  html : Option String
  last_updated : String
  link_status : List (String × Int)

/-- The analysis result record (`AnalysisResult` dataclass).  Python does not
enforce the dataclass field annotations, so `score` and `notes` carry whatever
runtime value was extracted from the reply. -/
structure AnalysisResult where
  url : String
  status : String
  last_updated : String
  score : PyVal
  notes : PyVal
  broken_links : String
deriving Repr

/-- Outcome of the `generate_content` call to the inference service: either a
reply text, or an exception raised by the call. -/
inductive InferenceReply where
  | ok : String → InferenceReply
  | error : String → InferenceReply

/-- JSON whitespace accepted between tokens by `json.loads`. -/
def jsonWs (c : Char) : Bool :=
  c == ' ' || c == '\t' || c == '\n' || c == '\r'

/-- Skip JSON whitespace. -/
def skipWs (cs : List Char) : List Char :=
  cs.dropWhile jsonWs

/-- Parse the body of a JSON string after the opening quote, returning the
decoded characters and the remaining input.  Python's strict mode rejects raw
control characters inside strings.  (Fuel-indexed so that it reduces
definitionally; at least one character is consumed per unit of fuel.) -/
def parseStringBody : Nat → List Char → Option (List Char × List Char)
  | 0, _ => Option.none
  | _ + 1, [] => Option.none
  | fuel + 1, c :: rest =>
    if c = '"' then Option.some ([], rest)
    else if c = '\\' then
      match rest with
      | [] => Option.none
      | e :: rest2 =>
        let dec : Option Char :=
          if e = '"' then Option.some '"'
          else if e = '\\' then Option.some '\\'
          else if e = '/' then Option.some '/'
          else if e = 'n' then Option.some '\n'
          else if e = 't' then Option.some '\t'
          else if e = 'r' then Option.some '\r'
          else Option.none
        match dec with
        | Option.none => Option.none
        | Option.some d =>
          match parseStringBody fuel rest2 with
          | Option.some (s, r) => Option.some (d :: s, r)
          | Option.none => Option.none
    else if c.toNat < 32 then Option.none
    else
      match parseStringBody fuel rest with
      | Option.some (s, r) => Option.some (c :: s, r)
      | Option.none => Option.none

/-- JSON string-body parsing with sufficient fuel for the whole input. -/
def parseString (cs : List Char) : Option (List Char × List Char) :=
  parseStringBody (cs.length + 1) cs

/-- Numeric value of a digit run. -/
def natOfDigits (ds : List Char) : Nat :=
  ds.foldl (fun a c => a * 10 + (c.toNat - 48)) 0

/-- Parse a non-empty run of decimal digits. -/
def parseDigits (cs : List Char) : Option (Nat × List Char) :=
  let ds := cs.takeWhile Char.isDigit
  if ds.isEmpty then Option.none
  else Option.some (natOfDigits ds, cs.drop ds.length)

mutual

/-- Fuel-indexed JSON value parser modelling `json.loads`. -/
def parseVal : Nat → List Char → Option (PyVal × List Char)
  | 0, _ => Option.none
  | fuel + 1, cs =>
    match skipWs cs with
    | [] => Option.none
    | c :: rest =>
      if c = '"' then
        match parseString rest with
        | Option.some (s, r) => Option.some (PyVal.str (String.mk s), r)
        | Option.none => Option.none
      else if c = 'n' then
        if rest.take 3 = ['u', 'l', 'l'] then Option.some (PyVal.none, rest.drop 3)
        else Option.none
      else if c = 't' then
        if rest.take 3 = ['r', 'u', 'e'] then Option.some (PyVal.bool true, rest.drop 3)
        else Option.none
      else if c = 'f' then
        if rest.take 4 = ['a', 'l', 's', 'e'] then Option.some (PyVal.bool false, rest.drop 4)
        else Option.none
      else if c = '-' then
        match parseDigits rest with
        | Option.some (n, r) => Option.some (PyVal.int (-(n : Int)), r)
        | Option.none => Option.none
      else if c.isDigit then
        match parseDigits (c :: rest) with
        | Option.some (n, r) => Option.some (PyVal.int (n : Int), r)
        | Option.none => Option.none
      else if c = '[' then
        match skipWs rest with
        | d :: r => if d = ']' then Option.some (PyVal.list [], r) else parseElems fuel rest []
        | [] => Option.none
      else if c = Char.ofNat 123 then
        match skipWs rest with
        | d :: r =>
          if d = Char.ofNat 125 then Option.some (PyVal.dict [], r)
          else parseMembers fuel rest []
        | [] => Option.none
      else Option.none

/-- Parse the comma-separated elements of a JSON array. -/
def parseElems : Nat → List Char → List PyVal → Option (PyVal × List Char)
  | 0, _, _ => Option.none
  | fuel + 1, cs, acc =>
    match parseVal fuel cs with
    | Option.none => Option.none
    | Option.some (v, r) =>
      match skipWs r with
      | ',' :: r2 => parseElems fuel r2 (acc ++ [v])
      | d :: r2 => if d = ']' then Option.some (PyVal.list (acc ++ [v]), r2) else Option.none
      | [] => Option.none

/-- Parse the comma-separated members of a JSON object. -/
def parseMembers : Nat → List Char → List (String × PyVal) → Option (PyVal × List Char)
  | 0, _, _ => Option.none
  | fuel + 1, cs, acc =>
    match skipWs cs with
    | '"' :: r =>
      match parseString r with
      | Option.none => Option.none
      | Option.some (k, r1) =>
        match skipWs r1 with
        | ':' :: r2 =>
          match parseVal fuel r2 with
          | Option.none => Option.none
          | Option.some (v, r3) =>
            match skipWs r3 with
            | ',' :: r4 => parseMembers fuel r4 (acc ++ [(String.mk k, v)])
            | d :: r4 =>
              if d = Char.ofNat 125 then
                Option.some (PyVal.dict (acc ++ [(String.mk k, v)]), r4)
              else Option.none
            | [] => Option.none
        | _ => Option.none
    | _ => Option.none

end

/-- Model of Python's `json.loads`: parse one value, then require only
whitespace to remain. -/
def jsonLoads (s : String) : Except String PyVal :=
  let cs := s.data
  match parseVal (2 * cs.length + 4) cs with
  | Option.some (v, rest) =>
    if (skipWs rest).isEmpty then Except.ok v else Except.error "Extra data"
  | Option.none => Except.error "Expecting value"

/-- The reply-cleaning step of `analyze`:
`response.text.strip().replace(backtick, empty)`, then dropping a leading
`json` language tag (`cleaned_response[4:]`).  Note that the backtick
replacement deletes every backtick in the text, not only fence markers. -/
def cleanReply (s : String) : String :=
  let stripped :=
    ((s.data.dropWhile Char.isWhitespace).reverse.dropWhile Char.isWhitespace).reverse
  let nobt := stripped.filter (fun c => c != Char.ofNat 96)
  let final := if nobt.take 4 = "json".data then nobt.drop 4 else nobt
  String.mk final

/-- Python `dict` lookup of a key (duplicate JSON keys: the last one wins). -/
def dictFind (kvs : List (String × PyVal)) (k : String) : Option PyVal :=
  (kvs.reverse.find? (fun p => p.1 == k)).map (fun p => p.2)

/-- Python `dict.get(k, default)`. -/
def dictGet (kvs : List (String × PyVal)) (k : String) (d : PyVal) : PyVal :=
  (dictFind kvs k).getD d

/-- Python comparison `v < m` between a dynamically-typed value and an int:
ints and bools compare numerically, every other type raises `TypeError`. -/
def pyLtInt : PyVal → Int → Except String Bool
  | PyVal.int n, m => Except.ok (decide (n < m))
  | PyVal.bool b, m => Except.ok (decide ((if b then (1 : Int) else 0) < m))
  | PyVal.str _, _ => Except.error "TypeError: < not supported between str and int"
  | PyVal.none, _ => Except.error "TypeError: < not supported between NoneType and int"
  | PyVal.list _, _ => Except.error "TypeError: < not supported between list and int"
  | PyVal.dict _, _ => Except.error "TypeError: < not supported between dict and int"

/-- The `try` block of `analyze`: resolve `(score, notes)` from the inference
outcome.  A raised call error, unparseable JSON, or a parsed non-dict (whose
`.get` raises `AttributeError`) are all caught by the `except` clause, which
sets `score = 100` and a diagnostic `notes`. -/
def tryResolve : InferenceReply → PyVal × PyVal
  | InferenceReply.error e => (PyVal.int 100, PyVal.str ("API 回應解析失敗: " ++ e))
  | InferenceReply.ok text =>
    match jsonLoads (cleanReply text) with
    | Except.error e => (PyVal.int 100, PyVal.str ("API 回應解析失敗: " ++ e))
    | Except.ok (PyVal.dict kvs) =>
      (dictGet kvs "score" (PyVal.int 100),
       dictGet kvs "notes" (PyVal.str "無法從 API 取得有效回覆"))
    | Except.ok _ =>
      (PyVal.int 100,
       PyVal.str ("API 回應解析失敗: " ++ "AttributeError: object has no attribute get"))

/-- The status derivation `if score < 50 ... elif score < 80 ... else ...`,
which sits outside the `try` block and therefore propagates a `TypeError`
raised by comparing a non-numeric score. -/
def deriveStatus (score : PyVal) : Except String String :=
  match pyLtInt score 50 with
  | Except.error e => Except.error e
  | Except.ok true => Except.ok "✅ 正常"
  | Except.ok false =>
    match pyLtInt score 80 with
    | Except.error e => Except.error e
    | Except.ok true => Except.ok "⚠️ 疑似"
    | Except.ok false => Except.ok "❌ 過時"

/-- The broken-link rendering of `analyze`: every link whose status code is
not 200, rendered with its code and joined by newlines. -/
def brokenLinksStr (link_status : List (String × Int)) : String :=
  String.intercalate "\n"
    ((link_status.filter (fun p => p.2 != 200)).map
      (fun p => p.1 ++ " (狀態: " ++ toString p.2 ++ ")"))

/-- Prompt template text before the interpolated `today_str`. -/
def promptPart1 : String :=
  "\n        請根據以下HTML內容和抓取到的資訊，評估一個政府網站是否過時。\n        你的角色是一位網站健檢專家。\n\n        **參考資訊:**\n        - **今天日期**: "

/-- Prompt template text between `today_str` and the url. -/
def promptPart2 : String :=
  "\n        - 網站 URL: "

/-- Prompt template text between the url and the last-updated value. -/
def promptPart3 : String :=
  "\n        - 最後更新日期: "

/-- Prompt template text between the last-updated value and the broken-link
summary. -/
def promptPart4 : String :=
  "\n        - **失效連結**: "

/-- The fixed scoring rubric between the broken-link summary and the HTML
excerpt. -/
def promptPart5 : String :=
  "\n\n**3. 評分指南 (請嚴格遵循，總分100分):**\n        您必須針對以下三個主要項目，各自給予規定的分數。分數越高，代表該項目越過時或問題越嚴重。\n        此外，您需要根據失效連結的數量給予一個額外的加分項。\n\n        **A. 過時元件 (Outdated Component) - (0-40分):**\n        - **基準**: jQuery < 3.0, React < 16.8, Vue < 2.6 皆視為過時。\n        - **0分**: 未偵測到函式庫，或使用的函式庫皆為現代版本。\n        - **1-20分**: 使用了一個過時的函式庫。\n        - **21-40分**: 使用了多個過時的函式庫，或版本極為古老 (例如 jQuery 1.x)。\n\n        **B. 過時內容 (Outdated Content) - (0-40分):**\n        - **0分**: 內容非常新穎，提及近期的活動或資訊。\n        - **1-20分**: 內容看起來不常更新 (例如都是通用性說明)，但沒有明確的過期指標。\n        - **21-40分**: 內容有非常明確的過期資訊 (例如: 提及數年前的活動、新聞、法規，且無更新跡象)。\n\n        **C. 過久未更新 (Last Update) - (0-20分):**\n        - **0分**: 「最後更新日期」在一年內。\n        - **1-10分**: 「最後更新日期」距今 1-2 年。\n        - **11-20分**: 「最後更新日期」距今超過 2 年。\n        - **注意**: 如果沒有找到「最後更新日期」，可能為爬蟲程式判別不到，請斟酌給分。\n\n        **D. 額外加分 - 失效連結 (Broken Link Penalty) - (0-5分):**\n        - **0分**: 沒有失效連結。\n        - **1-2分**: 存在 1-4 個失效連結。\n        - **3-5分**: 存在 5 個或更多失效連結。\n        - **注意**: 403可能是跳轉驗證，所以可以忽略。\n\n        **4. 你的任務:**\n        請根據以上所有資訊，綜合判斷並完全按照下面的 JSON 格式回傳你的分析結果，不得有其他種回復格式，不然系統會出錯。\n        在 `notes` 中，請簡潔地總結你的主要發現，並點出判斷的關鍵依據 (例如：「偵測到使用過時的 jQuery 1.12.4，且最後更新日為三年前，並發現3個失效連結。」)。\n\n        **HTML 內容 (前 2000 字元):**\n        ```html\n        "

/-- Prompt template text after the HTML excerpt: the strict JSON output-format
instruction. -/
def promptPart6 : String :=
  "\n        ```\n\n        **輸出要求:**\n        請嚴格按照以下 JSON 格式回傳，不要有任何額外的文字或說明：\n        \x7b\n          \"score\": <一個 0-100 的整數，分數越高代表越過時>,\n          \"notes\": \"<一段簡短的中文說明，總結你的發現，如果發現失效連結，請在說明中提及(完整連結url)>\"\n        \x7d\n        "

/-- The rubric prompt f-string of `analyze`: the fixed template interpolated
with today's date, the url, the last-updated value (or the not-found marker
when it is empty/falsy), the broken-link summary (or the none marker), and the
first 2000 characters of the HTML. -/
def buildPrompt (today_str url last_updated broken_links_str html : String) : String :=
  promptPart1 ++ today_str ++ promptPart2 ++ url ++ promptPart3 ++
    (if last_updated = "" then "未找到" else last_updated) ++ promptPart4 ++
    (if broken_links_str = "" then "無" else broken_links_str) ++ promptPart5 ++
    html.take 2000 ++ promptPart6

/-- The prompt `analyze` sends for a given crawl result and today's date. -/
def analyzePrompt (cr : CrawlResult) (today_str : String) : String :=
  buildPrompt today_str cr.url cr.last_updated (brokenLinksStr cr.link_status)
    (cr.html.getD "")

/-- Transcription of `ContentAnalysisAgent.analyze`.  `infer` abstracts the
`generate_content` call; the second component of the result collects every
prompt sent to the inference service (so the short-circuit path is provably
call-free).  The result is `Except` because the status derivation sits outside
the `try` block and can raise a `TypeError` to the caller. -/
def analyze (infer : String → InferenceReply) (cr : CrawlResult) (today_str : String) :
    Except String AnalysisResult × List String :=
  if cr.html.getD "" = "" then
    (Except.ok
      { url := cr.url, status := "❌ 錯誤", last_updated := "",
        score := PyVal.int 100, notes := PyVal.str "無法抓取網頁內容",
        broken_links := "" }, [])
  else
    let prompt := analyzePrompt cr today_str
    let sn := tryResolve (infer prompt)
    (match deriveStatus sn.1 with
     | Except.error e => Except.error e
     | Except.ok status =>
       Except.ok
         { url := cr.url, status := status, last_updated := cr.last_updated,
           score := sn.1, notes := sn.2,
           broken_links := brokenLinksStr cr.link_status },
     [prompt])

/-- The pure status-from-score function the spec describes (§4.2), extended to
the dynamic types for which the comparison chain of `analyze` succeeds: ints
use the fixed thresholds, Python bools compare as 0/1 (hence always below 50),
and every other runtime type makes the comparison raise, producing no status. -/
def statusOfScore : PyVal → Option String
  | PyVal.int n =>
    Option.some (if n < 50 then "✅ 正常" else if n < 80 then "⚠️ 疑似" else "❌ 過時")
  | PyVal.bool _ => Option.some "✅ 正常"
  | _ => Option.none

/-- A reply the `try` block cannot extract fields from: a raised call error,
unparseable JSON, or a parsed value that is not a JSON object. -/
def replyUnusable : InferenceReply → Bool
  | InferenceReply.error _ => true
  | InferenceReply.ok text =>
    match jsonLoads (cleanReply text) with
    | Except.ok (PyVal.dict _) => false
    | _ => true

lemma analyze_of_html_present (infer : String → InferenceReply) (cr : CrawlResult)
    (today : String) (hh : ¬ cr.html.getD "" = "") :
    analyze infer cr today =
      (match deriveStatus (tryResolve (infer (analyzePrompt cr today))).1 with
       | Except.error e => Except.error e
       | Except.ok status =>
         Except.ok
           { url := cr.url, status := status, last_updated := cr.last_updated,
             score := (tryResolve (infer (analyzePrompt cr today))).1,
             notes := (tryResolve (infer (analyzePrompt cr today))).2,
             broken_links := brokenLinksStr cr.link_status },
       [analyzePrompt cr today]) := by
  unfold analyze
  rw [if_neg hh]

lemma deriveStatus_int (n : Int) :
    deriveStatus (PyVal.int n) =
      Except.ok (if n < 50 then "✅ 正常" else if n < 80 then "⚠️ 疑似" else "❌ 過時") := by
  unfold deriveStatus pyLtInt
  by_cases h1 : n < 50
  · simp [h1]
  · by_cases h2 : n < 80 <;> simp [h1, h2]

lemma deriveStatus_ok_cases (s : PyVal) (st : String) (h : deriveStatus s = Except.ok st) :
    statusOfScore s = Option.some st ∧
      (st = "✅ 正常" ∨ st = "⚠️ 疑似" ∨ st = "❌ 過時") := by
  cases s with
  | int n =>
    rw [deriveStatus_int] at h
    injection h with h
    subst h
    refine ⟨rfl, ?_⟩
    by_cases h1 : n < 50
    · simp [h1]
    · by_cases h2 : n < 80 <;> simp [h1, h2]
  | bool b =>
    unfold deriveStatus pyLtInt at h
    cases b <;> simp at h <;> subst h <;> exact ⟨rfl, Or.inl rfl⟩
  | none => simp [deriveStatus, pyLtInt] at h
  | str t => simp [deriveStatus, pyLtInt] at h
  | list l => simp [deriveStatus, pyLtInt] at h
  | dict kvs => simp [deriveStatus, pyLtInt] at h

lemma tryResolve_parsed (text : String) (kvs : List (String × PyVal))
    (hp : jsonLoads (cleanReply text) = Except.ok (PyVal.dict kvs)) :
    tryResolve (InferenceReply.ok text) =
      (dictGet kvs "score" (PyVal.int 100),
       dictGet kvs "notes" (PyVal.str "無法從 API 取得有效回覆")) := by
  simp only [tryResolve]
  rw [hp]

lemma tryResolve_unusable (reply : InferenceReply) (h : replyUnusable reply = true) :
    ∃ s, tryResolve reply = (PyVal.int 100, PyVal.str ("API 回應解析失敗: " ++ s)) := by
  cases reply with
  | error e => exact ⟨e, rfl⟩
  | ok text =>
    simp only [replyUnusable] at h
    rcases hj : jsonLoads (cleanReply text) with e | v
    · exact ⟨e, by simp only [tryResolve]; rw [hj]⟩
    · cases v
      case dict kvs => rw [hj] at h; simp at h
      all_goals
        exact ⟨"AttributeError: object has no attribute get", by simp only [tryResolve]; rw [hj]⟩

lemma analyze_parsed_int (infer : String → InferenceReply) (cr : CrawlResult)
    (today text : String) (kvs : List (String × PyVal)) (n : Int)
    (hh : ¬ cr.html.getD "" = "")
    (hr : infer (analyzePrompt cr today) = InferenceReply.ok text)
    (hp : jsonLoads (cleanReply text) = Except.ok (PyVal.dict kvs))
    (hs : dictGet kvs "score" (PyVal.int 100) = PyVal.int n) :
    (analyze infer cr today).1 = Except.ok
      { url := cr.url,
        status := if n < 50 then "✅ 正常" else if n < 80 then "⚠️ 疑似" else "❌ 過時",
        last_updated := cr.last_updated, score := PyVal.int n,
        notes := dictGet kvs "notes" (PyVal.str "無法從 API 取得有效回覆"),
        broken_links := brokenLinksStr cr.link_status } := by
  rw [analyze_of_html_present infer cr today hh, hr, tryResolve_parsed text kvs hp]
  simp only
  rw [hs, deriveStatus_int]

lemma analyze_unusable (infer : String → InferenceReply) (cr : CrawlResult) (today : String)
    (hh : ¬ cr.html.getD "" = "")
    (hf : replyUnusable (infer (analyzePrompt cr today)) = true) :
    ∃ s, (analyze infer cr today).1 = Except.ok
      { url := cr.url, status := "❌ 過時", last_updated := cr.last_updated,
        score := PyVal.int 100,
        notes := PyVal.str ("API 回應解析失敗: " ++ s),
        broken_links := brokenLinksStr cr.link_status } := by
  obtain ⟨s, hs⟩ := tryResolve_unusable _ hf
  refine ⟨s, ?_⟩
  rw [analyze_of_html_present infer cr today hh, hs]
  rw [show deriveStatus (PyVal.int 100, PyVal.str ("API 回應解析失敗: " ++ s)).1 =
        Except.ok "❌ 過時" from by rw [deriveStatus_int]; norm_num]

lemma analyze_of_html_absent (infer : String → InferenceReply) (cr : CrawlResult)
    (today : String) (hh : cr.html.getD "" = "") :
    analyze infer cr today =
      (Except.ok
        { url := cr.url, status := "❌ 錯誤", last_updated := "",
          score := PyVal.int 100, notes := PyVal.str "無法抓取網頁內容",
          broken_links := "" }, []) := by
  unfold analyze
  rw [if_pos hh]

lemma string_append_assoc (a b c : String) : a ++ b ++ c = a ++ (b ++ c) :=
  congrArg String.mk (List.append_assoc a.data b.data c.data)

/-- C4: for a crawl result whose html is absent or empty, `analyze`
short-circuits: the prompt trace is empty (no prompt is built and the
inference service is never invoked) and the fixed sentinel verdict is
returned, with score 100, the error status marker (the ❌-severity status the
spec calls Outdated-equivalent), and the notes saying the page content could
not be fetched. -/
theorem analyze_html_absent_sentinel (infer : String → InferenceReply) (cr : CrawlResult)
    (today : String) (hh : cr.html.getD "" = "") :
    analyze infer cr today =
      (Except.ok
        { url := cr.url, status := "❌ 錯誤", last_updated := "",
          score := PyVal.int 100, notes := PyVal.str "無法抓取網頁內容",
          broken_links := "" }, []) :=
  analyze_of_html_absent infer cr today hh

theorem analyze_html_absent_sentinel_witness :
    analyze (fun _ => InferenceReply.error "boom")
        { url := "https://example.gov", html := Option.none, last_updated := "",
          link_status := [("b", 404)] } "2026-10-12" =
      (Except.ok
        { url := "https://example.gov", status := "❌ 錯誤", last_updated := "",
          score := PyVal.int 100, notes := PyVal.str "無法抓取網頁內容",
          broken_links := "" }, []) :=
  analyze_html_absent_sentinel (fun _ => InferenceReply.error "boom")
    { url := "https://example.gov", html := Option.none, last_updated := "",
      link_status := [("b", 404)] } "2026-10-12" rfl

/-- C6 counterexample: in the html-absent sentinel case the returned verdict's
`last_updated` is the empty string, not the value `"2020-01-01"` carried by
the input crawl result, so `lastUpdated` is not copied verbatim in the
sentinel case. -/
theorem analyze_sentinel_last_updated_cx :
    (analyze (fun _ => InferenceReply.error "boom")
        { url := "u", html := Option.none, last_updated := "2020-01-01",
          link_status := [] } "2026-10-12").1 =
      Except.ok
        { url := "u", status := "❌ 錯誤", last_updated := "",
          score := PyVal.int 100, notes := PyVal.str "無法抓取網頁內容",
          broken_links := "" } ∧
    ("" : String) ≠ "2020-01-01" :=
  ⟨rfl, by decide⟩

/-- C6 amended: the verdict's `url` is always copied verbatim from the input;
`last_updated` is copied verbatim whenever html is present, but the
html-absent sentinel sets it to the empty string regardless of the input. -/
theorem analyze_url_last_updated_copied (infer : String → InferenceReply) (cr : CrawlResult)
    (today : String) (r : AnalysisResult)
    (h : (analyze infer cr today).1 = Except.ok r) :
    r.url = cr.url ∧
    (¬ cr.html.getD "" = "" → r.last_updated = cr.last_updated) ∧
    (cr.html.getD "" = "" → r.last_updated = "") := by
  by_cases hh : cr.html.getD "" = ""
  · rw [analyze_of_html_absent infer cr today hh] at h
    simp only [Except.ok.injEq] at h
    subst h
    exact ⟨rfl, fun hc => absurd hh hc, fun _ => rfl⟩
  · rw [analyze_of_html_present infer cr today hh] at h
    rcases hd : deriveStatus (tryResolve (infer (analyzePrompt cr today))).1 with e | st
    · rw [hd] at h; simp at h
    · rw [hd] at h
      simp only [Except.ok.injEq] at h
      subst h
      exact ⟨rfl, fun _ => rfl, fun hc => absurd hc hh⟩

theorem analyze_url_last_updated_copied_witness :
    ({ url := "u", status := "❌ 錯誤", last_updated := "", score := PyVal.int 100,
       notes := PyVal.str "無法抓取網頁內容", broken_links := "" } : AnalysisResult).url = "u" ∧
    (¬ (Option.none : Option String).getD "" = "" →
      ({ url := "u", status := "❌ 錯誤", last_updated := "", score := PyVal.int 100,
         notes := PyVal.str "無法抓取網頁內容", broken_links := "" } : AnalysisResult).last_updated
        = "2020-01-01") ∧
    ((Option.none : Option String).getD "" = "" →
      ({ url := "u", status := "❌ 錯誤", last_updated := "", score := PyVal.int 100,
         notes := PyVal.str "無法抓取網頁內容", broken_links := "" } : AnalysisResult).last_updated
        = "") :=
  analyze_url_last_updated_copied (fun _ => InferenceReply.error "boom")
    { url := "u", html := Option.none, last_updated := "2020-01-01", link_status := [] }
    "2026-10-12"
    { url := "u", status := "❌ 錯誤", last_updated := "", score := PyVal.int 100,
      notes := PyVal.str "無法抓取網頁內容", broken_links := "" } rfl

/-- C5 counterexample: for a crawl result with html absent and a broken link
in `link_status`, the sentinel verdict's `broken_links` is the empty string
instead of listing the non-200 link, so `brokenLinks` is not derived from
`linkStatus` identically in every evaluation. -/
theorem analyze_sentinel_broken_links_cx :
    (analyze (fun _ => InferenceReply.error "boom")
        { url := "u", html := Option.none, last_updated := "",
          link_status := [("b", 404)] } "2026-10-12").1 =
      Except.ok
        { url := "u", status := "❌ 錯誤", last_updated := "",
          score := PyVal.int 100, notes := PyVal.str "無法抓取網頁內容",
          broken_links := "" } ∧
    ("" : String) ≠ "b (狀態: 404)" :=
  ⟨rfl, by decide⟩

/-- C5 amended: whenever html is present, the returned verdict's
`broken_links` is exactly the newline-joined rendering of every link of
`link_status` whose status code is not 200, each annotated with its code —
for every inference function, i.e. independently of the inference outcome.
(The html-absent sentinel instead always carries the empty string.) -/
theorem analyze_broken_links_rendering (infer : String → InferenceReply) (cr : CrawlResult)
    (today : String) (r : AnalysisResult)
    (hh : ¬ cr.html.getD "" = "")
    (h : (analyze infer cr today).1 = Except.ok r) :
    r.broken_links = String.intercalate "\n"
      ((cr.link_status.filter (fun p => p.2 != 200)).map
        (fun p => p.1 ++ " (狀態: " ++ toString p.2 ++ ")")) := by
  rw [analyze_of_html_present infer cr today hh] at h
  rcases hd : deriveStatus (tryResolve (infer (analyzePrompt cr today))).1 with e | st
  · rw [hd] at h; simp at h
  · rw [hd] at h
    simp only [Except.ok.injEq] at h
    subst h
    rfl

theorem analyze_broken_links_rendering_witness :
    ({ url := "u", status := "❌ 過時", last_updated := "", score := PyVal.int 100,
       notes := PyVal.str "API 回應解析失敗: boom",
       broken_links := "b (狀態: 404)\nc (狀態: 403)" } : AnalysisResult).broken_links =
      String.intercalate "\n"
        (([("a", (200 : Int)), ("b", 404), ("c", 403)].filter (fun p => p.2 != 200)).map
          (fun p => p.1 ++ " (狀態: " ++ toString p.2 ++ ")")) :=
  analyze_broken_links_rendering (fun _ => InferenceReply.error "boom")
    { url := "u", html := Option.some "h", last_updated := "",
      link_status := [("a", 200), ("b", 404), ("c", 403)] } "d"
    { url := "u", status := "❌ 過時", last_updated := "", score := PyVal.int 100,
      notes := PyVal.str "API 回應解析失敗: boom",
      broken_links := "b (狀態: 404)\nc (狀態: 403)" }
    (by decide) rfl

/-- C2 counterexample: the html-absent sentinel verdict carries the status
"❌ 錯誤", a fourth status value distinct from all three members of the
{Normal, Suspect, Outdated} enumeration, while any other score-100 verdict
(here: one produced by a failed inference call) carries "❌ 過時"; so the
sentinel status is set independently of the score and differs from the status
of other score-100 verdicts. -/
theorem analyze_sentinel_status_cx :
    (analyze (fun _ => InferenceReply.error "boom")
        { url := "u", html := Option.none, last_updated := "", link_status := [] } "d").1 =
      Except.ok
        { url := "u", status := "❌ 錯誤", last_updated := "",
          score := PyVal.int 100, notes := PyVal.str "無法抓取網頁內容",
          broken_links := "" } ∧
    (analyze (fun _ => InferenceReply.error "boom")
        { url := "u", html := Option.some "<html>", last_updated := "", link_status := [] } "d").1 =
      Except.ok
        { url := "u", status := "❌ 過時", last_updated := "",
          score := PyVal.int 100, notes := PyVal.str "API 回應解析失敗: boom",
          broken_links := "" } ∧
    ("❌ 錯誤" : String) ≠ "❌ 過時" ∧
    ("❌ 錯誤" : String) ≠ "✅ 正常" ∧
    ("❌ 錯誤" : String) ≠ "⚠️ 疑似" :=
  ⟨rfl, rfl, by decide, by decide, by decide⟩

/-- C2 amended: in every html-present evaluation that returns a verdict, the
status is one of the fixed three values {Normal, Suspect, Outdated} and is the
pure deterministic function `statusOfScore` of the resolved score; the
html-absent sentinel is excluded, since it carries the distinct fourth status
"❌ 錯誤" independently of its score 100. -/
theorem analyze_status_pure_function (infer : String → InferenceReply) (cr : CrawlResult)
    (today : String) (r : AnalysisResult)
    (hh : ¬ cr.html.getD "" = "")
    (h : (analyze infer cr today).1 = Except.ok r) :
    statusOfScore r.score = Option.some r.status ∧
      (r.status = "✅ 正常" ∨ r.status = "⚠️ 疑似" ∨ r.status = "❌ 過時") := by
  rw [analyze_of_html_present infer cr today hh] at h
  rcases hd : deriveStatus (tryResolve (infer (analyzePrompt cr today))).1 with e | st
  · rw [hd] at h; simp at h
  · rw [hd] at h
    simp only [Except.ok.injEq] at h
    subst h
    exact deriveStatus_ok_cases _ _ hd

theorem analyze_status_pure_function_witness :
    statusOfScore (PyVal.int 100) = Option.some "❌ 過時" ∧
      (("❌ 過時" : String) = "✅ 正常" ∨ ("❌ 過時" : String) = "⚠️ 疑似" ∨
        ("❌ 過時" : String) = "❌ 過時") :=
  analyze_status_pure_function (fun _ => InferenceReply.error "boom")
    { url := "u", html := Option.some "h", last_updated := "", link_status := [] } "d"
    { url := "u", status := "❌ 過時", last_updated := "", score := PyVal.int 100,
      notes := PyVal.str "API 回應解析失敗: boom", broken_links := "" }
    (by decide) rfl

/-- C7: for every html-present evaluation whose inference reply parses to a
JSON object carrying an integer score, the verdict's status is derived from
the resolved score by the fixed thresholds: below 50 Normal ("✅ 正常"), from
50 below 80 Suspect ("⚠️ 疑似"), from 80 on Outdated ("❌ 過時"). -/
theorem analyze_status_thresholds (infer : String → InferenceReply) (cr : CrawlResult)
    (today text : String) (kvs : List (String × PyVal)) (n : Int)
    (hh : ¬ cr.html.getD "" = "")
    (hr : infer (analyzePrompt cr today) = InferenceReply.ok text)
    (hp : jsonLoads (cleanReply text) = Except.ok (PyVal.dict kvs))
    (hs : dictGet kvs "score" (PyVal.int 100) = PyVal.int n) :
    (analyze infer cr today).1 = Except.ok
      { url := cr.url,
        status := if n < 50 then "✅ 正常" else if n < 80 then "⚠️ 疑似" else "❌ 過時",
        last_updated := cr.last_updated, score := PyVal.int n,
        notes := dictGet kvs "notes" (PyVal.str "無法從 API 取得有效回覆"),
        broken_links := brokenLinksStr cr.link_status } :=
  analyze_parsed_int infer cr today text kvs n hh hr hp hs

theorem analyze_status_thresholds_witness :
    (analyze (fun _ => InferenceReply.ok "\x7b\"score\": 49\x7d")
        { url := "u", html := Option.some "h", last_updated := "", link_status := [] } "d").1 =
      Except.ok
        { url := "u", status := "✅ 正常", last_updated := "", score := PyVal.int 49,
          notes := PyVal.str "無法從 API 取得有效回覆", broken_links := "" } ∧
    (analyze (fun _ => InferenceReply.ok "\x7b\"score\": 50\x7d")
        { url := "u", html := Option.some "h", last_updated := "", link_status := [] } "d").1 =
      Except.ok
        { url := "u", status := "⚠️ 疑似", last_updated := "", score := PyVal.int 50,
          notes := PyVal.str "無法從 API 取得有效回覆", broken_links := "" } ∧
    (analyze (fun _ => InferenceReply.ok "\x7b\"score\": 79\x7d")
        { url := "u", html := Option.some "h", last_updated := "", link_status := [] } "d").1 =
      Except.ok
        { url := "u", status := "⚠️ 疑似", last_updated := "", score := PyVal.int 79,
          notes := PyVal.str "無法從 API 取得有效回覆", broken_links := "" } ∧
    (analyze (fun _ => InferenceReply.ok "\x7b\"score\": 80\x7d")
        { url := "u", html := Option.some "h", last_updated := "", link_status := [] } "d").1 =
      Except.ok
        { url := "u", status := "❌ 過時", last_updated := "", score := PyVal.int 80,
          notes := PyVal.str "無法從 API 取得有效回覆", broken_links := "" } :=
  ⟨analyze_status_thresholds (fun _ => InferenceReply.ok "\x7b\"score\": 49\x7d")
      { url := "u", html := Option.some "h", last_updated := "", link_status := [] } "d"
      "\x7b\"score\": 49\x7d" [("score", PyVal.int 49)] 49 (by decide) rfl rfl rfl,
   analyze_status_thresholds (fun _ => InferenceReply.ok "\x7b\"score\": 50\x7d")
      { url := "u", html := Option.some "h", last_updated := "", link_status := [] } "d"
      "\x7b\"score\": 50\x7d" [("score", PyVal.int 50)] 50 (by decide) rfl rfl rfl,
   analyze_status_thresholds (fun _ => InferenceReply.ok "\x7b\"score\": 79\x7d")
      { url := "u", html := Option.some "h", last_updated := "", link_status := [] } "d"
      "\x7b\"score\": 79\x7d" [("score", PyVal.int 79)] 79 (by decide) rfl rfl rfl,
   analyze_status_thresholds (fun _ => InferenceReply.ok "\x7b\"score\": 80\x7d")
      { url := "u", html := Option.some "h", last_updated := "", link_status := [] } "d"
      "\x7b\"score\": 80\x7d" [("score", PyVal.int 80)] 80 (by decide) rfl rfl rfl⟩

/-- C1 counterexample: an inference reply with score 150 is propagated raw
into the verdict — the returned score is 150, outside [0,100]; no clamping
occurs. -/
theorem analyze_score_out_of_range_cx :
    (analyze (fun _ => InferenceReply.ok "\x7b\"score\": 150, \"notes\": \"x\"\x7d")
        { url := "u", html := Option.some "<html>", last_updated := "", link_status := [] } "d").1 =
      Except.ok
        { url := "u", status := "❌ 過時", last_updated := "",
          score := PyVal.int 150, notes := PyVal.str "x", broken_links := "" } ∧
    ¬ ((150 : Int) ≤ 100) :=
  ⟨rfl, by decide⟩

/-- C1 amended: the resolved score is the reply's `score` field verbatim
whenever the parsed reply object carries an integer score — including values
outside [0,100], which are propagated raw into the verdict; the score is
defaulted to 100 only when the reply is unusable or the field is absent, and
it is never clamped. -/
theorem analyze_score_propagated_verbatim (infer : String → InferenceReply) (cr : CrawlResult)
    (today text : String) (kvs : List (String × PyVal)) (n : Int)
    (hh : ¬ cr.html.getD "" = "")
    (hr : infer (analyzePrompt cr today) = InferenceReply.ok text)
    (hp : jsonLoads (cleanReply text) = Except.ok (PyVal.dict kvs))
    (hs : dictGet kvs "score" (PyVal.int 100) = PyVal.int n) :
    ∃ r, (analyze infer cr today).1 = Except.ok r ∧ r.score = PyVal.int n :=
  ⟨_, analyze_parsed_int infer cr today text kvs n hh hr hp hs, rfl⟩

theorem analyze_score_propagated_verbatim_witness :
    ∃ r, (analyze (fun _ => InferenceReply.ok "\x7b\"score\": 150\x7d")
        { url := "u", html := Option.some "h", last_updated := "", link_status := [] } "d").1 =
      Except.ok r ∧ r.score = PyVal.int 150 :=
  analyze_score_propagated_verbatim (fun _ => InferenceReply.ok "\x7b\"score\": 150\x7d")
    { url := "u", html := Option.some "h", last_updated := "", link_status := [] } "d"
    "\x7b\"score\": 150\x7d" [("score", PyVal.int 150)] 150 (by decide) rfl rfl rfl

/-- C3 counterexample: a reply that is a valid JSON object whose `score` field
is a string makes the evaluation raise: the `try` block extracts the string
unscathed, and the status comparison outside the `try` block raises a
`TypeError` that escapes to the caller. -/
theorem analyze_typeerror_escapes_cx :
    (analyze (fun _ => InferenceReply.ok "\x7b\"score\": \"high\", \"notes\": \"x\"\x7d")
        { url := "u", html := Option.some "<html>", last_updated := "", link_status := [] } "d").1 =
      Except.error "TypeError: < not supported between str and int" :=
  rfl

/-- C3 amended: for every html-present evaluation whose inference reply is
unusable (a raised call error, syntactically invalid JSON, or a parsed
non-object), no exception escapes: a well-formed verdict is returned with
score 100 and notes carrying the failure diagnostic.  (A valid JSON object
whose `score` field is of a non-numeric type instead raises a `TypeError`
that escapes, since the status comparison sits outside the `try` block.) -/
theorem analyze_failsafe_on_unusable (infer : String → InferenceReply) (cr : CrawlResult)
    (today : String)
    (hh : ¬ cr.html.getD "" = "")
    (hf : replyUnusable (infer (analyzePrompt cr today)) = true) :
    ∃ r, (analyze infer cr today).1 = Except.ok r ∧ r.score = PyVal.int 100 ∧
      ∃ s, r.notes = PyVal.str ("API 回應解析失敗: " ++ s) := by
  obtain ⟨s, hs⟩ := analyze_unusable infer cr today hh hf
  exact ⟨_, hs, rfl, s, rfl⟩

theorem analyze_failsafe_on_unusable_witness :
    ∃ r, (analyze (fun _ => InferenceReply.ok "not json")
        { url := "u", html := Option.some "h", last_updated := "", link_status := [] } "d").1 =
      Except.ok r ∧ r.score = PyVal.int 100 ∧
      ∃ s, r.notes = PyVal.str ("API 回應解析失敗: " ++ s) :=
  analyze_failsafe_on_unusable (fun _ => InferenceReply.ok "not json")
    { url := "u", html := Option.some "h", last_updated := "", link_status := [] } "d"
    (by decide) rfl

/-- C8 counterexample: a parsed reply whose `score` field is present but not
coercible to an integer is not defaulted to 100: the raw string value is
extracted verbatim. -/
theorem tryResolve_score_not_coerced_cx :
    (tryResolve (InferenceReply.ok "\x7b\"score\": \"high\", \"notes\": \"x\"\x7d")).1 =
      PyVal.str "high" ∧ PyVal.str "high" ≠ PyVal.int 100 :=
  ⟨rfl, by simp⟩

/-- C8 amended: for a reply that parses to a JSON object, the resolved score
defaults to 100 only when the `score` field is absent — a present field of
any runtime type is taken verbatim, with no integer coercion — and the
resolved notes defaults to the fixed "no valid reply" placeholder whenever
the `notes` field is absent. -/
theorem tryResolve_field_defaults (text : String) (kvs : List (String × PyVal))
    (hp : jsonLoads (cleanReply text) = Except.ok (PyVal.dict kvs)) :
    (dictFind kvs "score" = Option.none →
      (tryResolve (InferenceReply.ok text)).1 = PyVal.int 100) ∧
    (dictFind kvs "notes" = Option.none →
      (tryResolve (InferenceReply.ok text)).2 = PyVal.str "無法從 API 取得有效回覆") ∧
    (∀ v, dictFind kvs "score" = Option.some v →
      (tryResolve (InferenceReply.ok text)).1 = v) := by
  rw [tryResolve_parsed text kvs hp]
  refine ⟨fun h => ?_, fun h => ?_, fun v h => ?_⟩ <;> simp [dictGet, h]

theorem tryResolve_field_defaults_witness :
    (tryResolve (InferenceReply.ok "\x7b\x7d")).1 = PyVal.int 100 ∧
    (tryResolve (InferenceReply.ok "\x7b\x7d")).2 = PyVal.str "無法從 API 取得有效回覆" :=
  ⟨(tryResolve_field_defaults "\x7b\x7d" [] rfl).1 rfl,
   (tryResolve_field_defaults "\x7b\x7d" [] rfl).2.1 rfl⟩

/-- C9: the built prompt depends on the html only through its first 2000
characters (the remainder is truncated away regardless of page length), and
it embeds the target url, the last-updated value — or the explicit "未找到"
(not found) marker when that value is empty — and the truncated html. -/
theorem buildPrompt_truncation_and_embedding (today url lu bl h1 h2 : String)
    (htr : h1.take 2000 = h2.take 2000) :
    buildPrompt today url lu bl h1 = buildPrompt today url lu bl h2 ∧
    ∃ p1 p2 p3 p4,
      buildPrompt today url lu bl h1 =
        p1 ++ url ++ p2 ++ (if lu = "" then "未找到" else lu) ++ p3 ++
          h1.take 2000 ++ p4 := by
  constructor
  · unfold buildPrompt
    rw [htr]
  · refine ⟨promptPart1 ++ today ++ promptPart2, promptPart3,
      promptPart4 ++ (if bl = "" then "無" else bl) ++ promptPart5, promptPart6, ?_⟩
    unfold buildPrompt
    simp only [string_append_assoc]

theorem buildPrompt_truncation_and_embedding_witness :
    (buildPrompt "d" "u" "" "" "abc" = buildPrompt "d" "u" "" "" "abc") ∧
    ∃ p1 p2 p3 p4,
      buildPrompt "d" "u" "" "" "abc" =
        p1 ++ "u" ++ p2 ++ (if ("" : String) = "" then "未找到" else "") ++ p3 ++
          ("abc" : String).take 2000 ++ p4 :=
  buildPrompt_truncation_and_embedding "d" "u" "" "" "abc" "abc" rfl

lemma string_mk_data (l : List Char) : (String.mk l).data = l := rfl

lemma string_data_append (a b : String) : (a ++ b).data = a.data ++ b.data := rfl

lemma strip_sandwich (a b : Char) (mid : List Char)
    (ha : a.isWhitespace = false) (hb : b.isWhitespace = false) :
    (((a :: (mid ++ [b])).dropWhile Char.isWhitespace).reverse.dropWhile
        Char.isWhitespace).reverse = a :: (mid ++ [b]) := by
  rw [List.dropWhile_cons]
  simp only [ha, Bool.false_eq_true, if_false]
  rw [show (a :: (mid ++ [b])).reverse = b :: (mid.reverse ++ [a]) from by
    simp [List.reverse_cons, List.reverse_append]]
  rw [List.dropWhile_cons]
  simp only [hb, Bool.false_eq_true, if_false]
  simp [List.reverse_cons, List.reverse_append]

lemma parseStringBody_append : ∀ (s : List Char) (f : Nat) (rest : List Char),
    s.length < f → (∀ c ∈ s, c ≠ '"' ∧ c ≠ '\\' ∧ 32 ≤ c.toNat) →
    parseStringBody f (s ++ '"' :: rest) = Option.some (s, rest) := by
  intro s
  induction s with
  | nil =>
    intro f rest hf h
    obtain ⟨g, rfl⟩ : ∃ g, f = g + 1 := ⟨f - 1, by omega⟩
    rfl
  | cons c t ih =>
    intro f rest hf h
    obtain ⟨g, rfl⟩ : ∃ g, f = g + 1 := ⟨f - 1, by omega⟩
    obtain ⟨h1, h2, h3⟩ := h c (List.mem_cons_self c t)
    have ht : ∀ c' ∈ t, c' ≠ '"' ∧ c' ≠ '\\' ∧ 32 ≤ c'.toNat :=
      fun c' hc' => h c' (List.mem_cons_of_mem c hc')
    have hg : t.length < g := by simp at hf; omega
    rw [List.cons_append]
    simp only [parseStringBody]
    rw [if_neg h1, if_neg h2, if_neg (by omega : ¬ c.toNat < 32), ih g rest hg ht]

lemma parseString_append (s rest : List Char)
    (h : ∀ c ∈ s, c ≠ '"' ∧ c ≠ '\\' ∧ 32 ≤ c.toNat) :
    parseString (s ++ '"' :: rest) = Option.some (s, rest) :=
  parseStringBody_append s ((s ++ '"' :: rest).length + 1) rest
    (by simp [List.length_append]; omega) h

lemma parse_scored_object (f : Nat) (fn : List Char)
    (h : ∀ c ∈ fn, c ≠ '"' ∧ c ≠ '\\' ∧ 32 ≤ c.toNat) :
    parseVal (f + 4) ("\x7b\"score\": 30, \"notes\": \"".data ++ fn ++ "\"\x7d".data) =
      Option.some
        (PyVal.dict [("score", PyVal.int 30), ("notes", PyVal.str (String.mk fn))], []) := by
  have hsb : parseString (fn ++ "\"\x7d".data) = Option.some (fn, [Char.ofNat 125]) :=
    parseString_append fn [Char.ofNat 125] h
  rw [show parseVal (f + 4) ("\x7b\"score\": 30, \"notes\": \"".data ++ fn ++ "\"\x7d".data) =
      (match parseVal (f + 1) (' ' :: '"' :: (fn ++ "\"\x7d".data)) with
       | Option.none => Option.none
       | Option.some (v, r3) =>
         match skipWs r3 with
         | ',' :: r4 => parseMembers (f + 1) r4 ([("score", PyVal.int 30)] ++ [("notes", v)])
         | d :: r4 =>
           if d = Char.ofNat 125 then
             Option.some (PyVal.dict ([("score", PyVal.int 30)] ++ [("notes", v)]), r4)
           else Option.none
         | [] => Option.none) from rfl]
  rw [show parseVal (f + 1) (' ' :: '"' :: (fn ++ "\"\x7d".data)) =
      (match parseString (fn ++ "\"\x7d".data) with
       | Option.some (s, r) => Option.some (PyVal.str (String.mk s), r)
       | Option.none => Option.none) from rfl]
  rw [hsb]
  rfl

lemma jsonLoads_scored_object (fn : List Char)
    (h : ∀ c ∈ fn, c ≠ '"' ∧ c ≠ '\\' ∧ 32 ≤ c.toNat) :
    jsonLoads (String.mk ("\x7b\"score\": 30, \"notes\": \"".data ++ fn ++ "\"\x7d".data)) =
      Except.ok
        (PyVal.dict [("score", PyVal.int 30), ("notes", PyVal.str (String.mk fn))]) := by
  simp only [jsonLoads, string_mk_data]
  rw [parse_scored_object (2 * ("\x7b\"score\": 30, \"notes\": \"".data ++ fn ++
    "\"\x7d".data).length) fn h]
  rfl

lemma scored_text_data (l : List Char) :
    "\x7b\"score\": 30, \"notes\": \"".data ++ l ++ "\"\x7d".data
      = Char.ofNat 123 ::
          (("\"score\": 30, \"notes\": \"".data ++ l ++ ['"']) ++ [Char.ofNat 125]) := by
  simp only [List.append_assoc, List.cons_append]
  rfl

lemma cleanReply_concrete (notes : List Char) :
    cleanReply ("\x7b\"score\": 30, \"notes\": \"" ++ String.mk notes ++ "\"\x7d") =
      String.mk ("\x7b\"score\": 30, \"notes\": \"".data ++
        notes.filter (fun c => c != Char.ofNat 96) ++ "\"\x7d".data) := by
  have hfil : (Char.ofNat 123 ::
        (("\"score\": 30, \"notes\": \"".data ++ notes ++ ['"']) ++ [Char.ofNat 125])).filter
          (fun c => c != Char.ofNat 96) =
      Char.ofNat 123 ::
        (("\"score\": 30, \"notes\": \"".data ++ notes.filter (fun c => c != Char.ofNat 96) ++
          ['"']) ++ [Char.ofNat 125]) := by
    simp [List.filter_append]
  have htake : List.take 4 (Char.ofNat 123 ::
        (("\"score\": 30, \"notes\": \"".data ++
          notes.filter (fun c => c != Char.ofNat 96) ++ ['"']) ++ [Char.ofNat 125])) =
      [Char.ofNat 123, '"', 's', 'c'] := rfl
  have hjson : ¬ (List.take 4 (Char.ofNat 123 ::
        (("\"score\": 30, \"notes\": \"".data ++
          notes.filter (fun c => c != Char.ofNat 96) ++ ['"']) ++ [Char.ofNat 125])) =
      "json".data) := by
    rw [htake]
    decide
  simp only [cleanReply]
  rw [show ("\x7b\"score\": 30, \"notes\": \"" ++ String.mk notes ++ "\"\x7d").data
      = "\x7b\"score\": 30, \"notes\": \"".data ++ notes ++ "\"\x7d".data from rfl]
  rw [scored_text_data notes]
  rw [strip_sandwich (Char.ofNat 123) (Char.ofNat 125) _ (by decide) (by decide)]
  rw [hfil]
  rw [if_neg hjson]
  rw [← scored_text_data (notes.filter (fun c => c != Char.ofNat 96))]

/-- C10: the reply-cleaning step deletes every backtick anywhere in the reply
(first conjunct: no backtick ever survives cleaning), and consequently, for a
reply that is a valid JSON object whose `notes` string contains backticks, the
evaluation still parses successfully but the verdict's notes is the reply's
notes with all backticks removed — not the notes verbatim (second conjunct,
over the family of replies `{"score": 30, "notes": "<notes>"}` with the notes
characters free of quotes, backslashes and control characters). -/
theorem analyze_backtick_removal (infer : String → InferenceReply) (cr : CrawlResult)
    (today : String) (notes : List Char)
    (hh : ¬ cr.html.getD "" = "")
    (hch : ∀ c ∈ notes, c ≠ '"' ∧ c ≠ '\\' ∧ 32 ≤ c.toNat)
    (hr : infer (analyzePrompt cr today) =
      InferenceReply.ok ("\x7b\"score\": 30, \"notes\": \"" ++ String.mk notes ++ "\"\x7d")) :
    (∀ s : String, Char.ofNat 96 ∉ (cleanReply s).data) ∧
    ∃ r, (analyze infer cr today).1 = Except.ok r ∧
      r.notes = PyVal.str (String.mk (notes.filter (fun c => c != Char.ofNat 96))) ∧
      (Char.ofNat 96 ∈ notes → r.notes ≠ PyVal.str (String.mk notes)) := by
  constructor
  · intro s hmem
    simp only [cleanReply, string_mk_data] at hmem
    by_cases hif : ((((s.data.dropWhile Char.isWhitespace).reverse.dropWhile
        Char.isWhitespace).reverse).filter (fun c => c != Char.ofNat 96)).take 4 = "json".data
    · rw [if_pos hif] at hmem
      have hm := List.mem_filter.mp (List.mem_of_mem_drop hmem)
      simp at hm
    · rw [if_neg hif] at hmem
      have hm := List.mem_filter.mp hmem
      simp at hm
  · have hq : ∀ c ∈ notes.filter (fun c => c != Char.ofNat 96),
        c ≠ '"' ∧ c ≠ '\\' ∧ 32 ≤ c.toNat :=
      fun c hc => hch c (List.mem_of_mem_filter hc)
    have hload : jsonLoads (cleanReply
        ("\x7b\"score\": 30, \"notes\": \"" ++ String.mk notes ++ "\"\x7d")) =
        Except.ok (PyVal.dict [("score", PyVal.int 30),
          ("notes", PyVal.str (String.mk (notes.filter (fun c => c != Char.ofNat 96))))]) := by
      rw [cleanReply_concrete notes, jsonLoads_scored_object _ hq]
    have happ := analyze_parsed_int infer cr today _ _ 30 hh hr hload rfl
    refine ⟨_, happ, rfl, ?_⟩
    intro hbt hEq
    have h2 : PyVal.str (String.mk (notes.filter (fun c => c != Char.ofNat 96))) =
        PyVal.str (String.mk notes) := hEq
    have h3 : notes.filter (fun c => c != Char.ofNat 96) = notes := by
      injection h2 with h2'
      exact congrArg String.data h2'
    have h4 := (List.filter_eq_self.mp h3) (Char.ofNat 96) hbt
    simp at h4

theorem analyze_backtick_removal_witness :
    (∀ s : String, Char.ofNat 96 ∉ (cleanReply s).data) ∧
    ∃ r, (analyze (fun _ => InferenceReply.ok
        ("\x7b\"score\": 30, \"notes\": \"" ++ String.mk ['a', Char.ofNat 96, 'b'] ++ "\"\x7d"))
        { url := "u", html := Option.some "h", last_updated := "", link_status := [] } "d").1 =
      Except.ok r ∧
      r.notes = PyVal.str
        (String.mk (['a', Char.ofNat 96, 'b'].filter (fun c => c != Char.ofNat 96))) ∧
      (Char.ofNat 96 ∈ ['a', Char.ofNat 96, 'b'] →
        r.notes ≠ PyVal.str (String.mk ['a', Char.ofNat 96, 'b'])) :=
  analyze_backtick_removal
    (fun _ => InferenceReply.ok
      ("\x7b\"score\": 30, \"notes\": \"" ++ String.mk ['a', Char.ofNat 96, 'b'] ++ "\"\x7d"))
    { url := "u", html := Option.some "h", last_updated := "", link_status := [] } "d"
    ['a', Char.ofNat 96, 'b'] (by decide) (by decide) rfl
